import Mathlib

/-!
Shallow embedding of the core of otel-instrumentation-postgres: the SQL shape
analyzer (lib/src/query-analysis.ts), the default parameter sanitizer and the
telemetry consumer's listener / connection-event handling
(lib/src/instrumentation.ts), and the interception layer
(lib/src/emitter/proxy-handler).  JS strings are modelled through their
character lists; machine timestamps are `Int` milliseconds; JS runtime values
are modelled by the `JsValue` inductive.
-/

set_option autoImplicit false

namespace OtelPg

/-! ### JS string primitives -/

/-- ASCII fragment of the JS regex character class \s (space, tab, newline,
carriage return, vertical tab, form feed). -/
def jsIsWhitespace (c : Char) : Bool :=
  c = ' ' || c = '\t' || c = '\n' || c = '\r' || c = '\x0b' || c = '\x0c'

/-- JS regex character class \w, i.e. [A-Za-z0-9_]. -/
def jsIsWordChar (c : Char) : Bool :=
  c.isAlphanum || c = '_'

/-- Embeds the replacement of the regex "--.*$" (flags g, m) by "": on each
line, everything from the first "--" to the end of the line is removed (a dot
does not cross a newline, so the newline itself is kept).  The flag is true
while inside a comment. -/
def stripCommentsAux : Bool → List Char → List Char
  | _, [] => []
  | true, c :: rest =>
    if c = '\n' then '\n' :: stripCommentsAux false rest
    else stripCommentsAux true rest
  | false, '-' :: '-' :: rest => stripCommentsAux true rest
  | false, c :: rest => c :: stripCommentsAux false rest

def stripLineComments (l : List Char) : List Char :=
  stripCommentsAux false l

/-- Embeds `.replace(/\s+/g, " ")`: every maximal run of whitespace becomes a
single space.  The flag records whether the previous character was whitespace. -/
def collapseWsAux : Bool → List Char → List Char
  | _, [] => []
  | prevWs, c :: rest =>
    if jsIsWhitespace c then
      if prevWs then collapseWsAux true rest
      else ' ' :: collapseWsAux true rest
    else c :: collapseWsAux false rest

def collapseWs (l : List Char) : List Char :=
  collapseWsAux false l

/-- Embeds `String.prototype.trim()` (whitespace stripped from both ends). -/
def jsTrim (l : List Char) : List Char :=
  ((l.dropWhile jsIsWhitespace).reverse.dropWhile jsIsWhitespace).reverse

/-- Embeds `toUpperCase()` on the ASCII range. -/
def upperChars (l : List Char) : List Char :=
  l.map Char.toUpper

/-- Embeds `String.prototype.includes` (contiguous substring test). -/
def containsSub (pat : List Char) : List Char → Bool
  | [] => pat.isEmpty
  | c :: rest => pat.isPrefixOf (c :: rest) || containsSub pat rest

/-- Embeds `String.prototype.substring(i, j)`: both indices are clamped to the
string length, swapped when out of order, and the characters in between are
returned. -/
def jsSubstring (s : String) (i j : Nat) : String :=
  let len := s.length
  let a := min (min i len) (min j len)
  let b := max (min i len) (min j len)
  String.mk ((s.data.drop a).take (b - a))

/-! ### Table-name extraction, embedding the regexes
`/FROM\s+["`]?(\w+)["`]?/i`, `/INTO\s+.../i`, `/UPDATE\s+.../i` of
query-analysis.ts.  A JS `match` scans for the leftmost position where the
whole pattern succeeds and returns the first capture group. -/

/-- Case-insensitive literal match of `kw` at the head of `l`; returns the
rest of the input on success. -/
def matchCIAt : List Char → List Char → Option (List Char)
  | [], rest => some rest
  | _ :: _, [] => none
  | k :: ks, c :: cs => if k.toUpper = c.toUpper then matchCIAt ks cs else none

/-- After the keyword: `\s+` (at least one whitespace), an optional `"` or
backtick quote, then the `(\w+)` capture (at least one word character). -/
def captureWordAfterGap (rest : List Char) : Option (List Char) :=
  match rest with
  | [] => none
  | c :: cs =>
    if jsIsWhitespace c then
      let r1 := (c :: cs).dropWhile jsIsWhitespace
      let r2 := match r1 with
        | d :: ds => if d = '"' || d = Char.ofNat 96 then ds else r1
        | [] => r1
      let w := r2.takeWhile jsIsWordChar
      if w.isEmpty then none else some w
    else none

/-- Leftmost match: try the pattern at every position, left to right. -/
def findFirstCapture (kw : List Char) : List Char → Option (List Char)
  | [] => none
  | c :: rest =>
    match matchCIAt kw (c :: rest) with
    | some r =>
      match captureWordAfterGap r with
      | some w => some w
      | none => findFirstCapture kw rest
    | none => findFirstCapture kw rest

/-! ### Query analyzer (lib/src/query-analysis.ts, `analyzeQuery`) -/

def PG_COMPLEXITY_LOW : String := "low"

def PG_COMPLEXITY_MEDIUM : String := "medium"

def PG_COMPLEXITY_HIGH : String := "high"

structure QueryAnalysis where
  operation : String
  table : Option String
  hasWhere : Bool
  hasJoin : Bool
  hasOrderBy : Bool
  hasLimit : Bool
  parameterCount : Nat
  estimatedComplexity : String
  deriving DecidableEq, Repr

/-- The seven operation keywords, in the order the source tests them. -/
def opKeywords : List String :=
  ["SELECT", "INSERT", "UPDATE", "DELETE", "CREATE", "ALTER", "DROP"]

/-- The if/else chain of `analyzeQuery` determining the operation from the
upper-cased cleaned statement (`upperSql.startsWith(...)`). -/
def operationOf (upperSql : List Char) : String :=
  if "SELECT".data.isPrefixOf upperSql then "SELECT"
  else if "INSERT".data.isPrefixOf upperSql then "INSERT"
  else if "UPDATE".data.isPrefixOf upperSql then "UPDATE"
  else if "DELETE".data.isPrefixOf upperSql then "DELETE"
  else if "CREATE".data.isPrefixOf upperSql then "CREATE"
  else if "ALTER".data.isPrefixOf upperSql then "ALTER"
  else if "DROP".data.isPrefixOf upperSql then "DROP"
  else "UNKNOWN"

/-- The cleanSql of the source: strip line comments, collapse whitespace,
then trim. -/
def cleanSqlChars (sql : String) : List Char :=
  jsTrim (collapseWs (stripLineComments sql.data))

/-- Embedding of `analyzeQuery` from lib/src/query-analysis.ts. -/
def analyzeQuery (sql : String) : QueryAnalysis :=
  let clean := cleanSqlChars sql
  let upperSql := upperChars clean
  let operation := operationOf upperSql
  let tableMatch :=
    match findFirstCapture "FROM".data clean with
    | some w => some w
    | none =>
      match findFirstCapture "INTO".data clean with
      | some w => some w
      | none => findFirstCapture "UPDATE".data clean
  let table := tableMatch.map (fun w => String.mk w)
  let hasWhere := containsSub "WHERE".data upperSql
  let hasJoin := containsSub "JOIN".data upperSql
  let hasOrderBy := containsSub "ORDER BY".data upperSql
  let hasLimit := containsSub "LIMIT".data upperSql
  let parameterCount := (sql.data.filter (fun c => c = '?')).length
  let ec1 :=
    if hasJoin || hasOrderBy || decide (parameterCount > 5) then PG_COMPLEXITY_MEDIUM
    else PG_COMPLEXITY_LOW
  let ec :=
    if hasJoin && hasOrderBy && hasWhere then PG_COMPLEXITY_HIGH else ec1
  { operation := operation, table := table, hasWhere := hasWhere, hasJoin := hasJoin,
    hasOrderBy := hasOrderBy, hasLimit := hasLimit, parameterCount := parameterCount,
    estimatedComplexity := ec }

/-! ### JS runtime values -/

/-- Primitive JS values as they occur as query parameters and results. -/
inductive JsValue where
  | str (s : String)
  | num (n : Int)
  | boolean (b : Bool)
  | nullV
  | undef
  deriving DecidableEq, Repr

/-- `String(v)` for the modelled primitive values. -/
def jsToString : JsValue → String
  | .str s => s
  | .num n => toString n
  | .boolean b => if b then "true" else "false"
  | .nullV => "null"
  | .undef => "undefined"

/-- JS truthiness of the modelled primitive values. -/
def jsTruthy : JsValue → Bool
  | .str s => !s.isEmpty
  | .num n => decide (n ≠ 0)
  | .boolean b => b
  | .nullV => false
  | .undef => false

/-! ### Default parameter sanitizer (lib/src/instrumentation.ts,
`defaultParameterSanitizer`) -/

/-- Embeds `/password|token|secret/i.test(s)`: case-insensitive substring
search for any of the three words. -/
def testSensitive (s : String) : Bool :=
  let u := upperChars s.data
  containsSub "PASSWORD".data u || containsSub "TOKEN".data u ||
    containsSub "SECRET".data u

/-- Embedding of `defaultParameterSanitizer`: a string longer than 100
characters is truncated first (so it is never redacted); otherwise a string
matching the sensitive pattern is redacted; everything else goes through
`String(param)` (which is the identity on the remaining strings). -/
def defaultParameterSanitizer (param : JsValue) : String :=
  match param with
  | .str s =>
    if s.length > 100 then jsSubstring s 0 100 ++ "..."
    else if testSensitive s then "[REDACTED]"
    else s
  | v => jsToString v

/-! ### Events (lib/src/db-events.ts and constants.ts) -/

/-- A DbQueryEvent as built by emitAndRunQuery: on success `result` is set,
on failure `error` is set. -/
structure DbQueryEvent where
  sql : String
  params : List JsValue
  result : Option JsValue
  error : Option JsValue
  durationMs : Int
  databaseName : Option String
  deriving DecidableEq, Repr

/-- A connection event ("db:connection" topic); `kind` is the source's `type`
field, "connect" or "disconnect". -/
structure ConnectionEvent where
  kind : String
  timestamp : Int
  connectionId : String
  deriving DecidableEq, Repr

/-- An event published on the singleton emitter, tagged with its topic
("db:query" carries DbQueryEvent, "db:connection" carries ConnectionEvent). -/
inductive Emitted where
  | query (e : DbQueryEvent)
  | connection (e : ConnectionEvent)
  deriving DecidableEq, Repr

/-! ### Interception layer: query execution
(lib/src/emitter/proxy-handler/query-executor.ts, `emitAndRunQuery`) -/

/-- Embedding of `emitAndRunQuery`.  The settlement of the awaited underlying
call is `out` (`Except.error` for a rejected promise); `start` and `stop` are
the Date.now() readings taken before the call and at settlement;
`databaseName` is the value the source extracts from the options of thisArg
or target.  The returned pair is (events emitted on the "db:query" topic,
outcome observed by the caller). -/
def emitAndRunQuery (sql : String) (params : List JsValue)
    (databaseName : Option String) (start stop : Int)
    (out : Except JsValue JsValue) :
    List Emitted × Except JsValue JsValue :=
  match out with
  | .ok v =>
    ([.query { sql := sql, params := params, result := some v, error := none,
               durationMs := stop - start, databaseName := databaseName }],
     .ok v)
  | .error e =>
    ([.query { sql := sql, params := params, result := none, error := some e,
               durationMs := stop - start, databaseName := databaseName }],
     .error e)

/-- The durationMs fields of the query events in an event list. -/
def queryDurations (l : List Emitted) : List Int :=
  l.filterMap (fun ev => match ev with | .query e => some e.durationMs | _ => none)

/-! ### Interception layer: query detection
(lib/src/emitter/proxy-handler/proxy-handler.ts and reserved-connection.ts) -/

/-- The anchored case-insensitive test of the source's sqlRegex
(the regex ^(SELECT|INSERT|UPDATE|DELETE|CREATE|ALTER|DROP) with flag i):
true exactly when one of the seven keywords is a prefix of the upper-cased
string, starting at its very first character. -/
def sqlRegexTest (s : String) : Bool :=
  opKeywords.any (fun kw => kw.data.isPrefixOf (upperChars s.data))

/-- An invocation through a wrapped handle: `arg0` is argArray[0] (absent when
the call has no arguments) and `params` is the parameter array argArray[1]
(the source reads it as an array, defaulting to [] when absent). -/
structure Invocation where
  arg0 : Option JsValue
  params : List JsValue
  deriving DecidableEq, Repr

/-- The query-detection guard of the wrapped function call:
argArray[0] truthy, of type string, and passing sqlRegex. -/
def isQueryCall (inv : Invocation) : Bool :=
  match inv.arg0 with
  | some (.str s) => jsTruthy (.str s) && sqlRegexTest s
  | some _ => false
  | none => false

/-- argArray[0] read as a string (only used when the guard succeeded). -/
def invSql (inv : Invocation) : String :=
  match inv.arg0 with
  | some (.str s) => s
  | _ => ""

/-- A wrapped (non-reserve) function invocation in createProxyHandler.get:
when the guard detects SQL the call goes through emitAndRunQuery, otherwise
it is delegated with no event. -/
def wrappedCall (inv : Invocation) (databaseName : Option String)
    (start stop : Int) (out : Except JsValue JsValue) :
    List Emitted × Except JsValue JsValue :=
  if isQueryCall inv then
    emitAndRunQuery (invSql inv) inv.params databaseName start stop out
  else ([], out)

/-- Modelled from the spec and claim wording, for comparison only: the claim's
detection heuristic, which first trims leading whitespace and line comments
and then applies the anchored keyword test. -/
def specQueryShaped (s : String) : Bool :=
  sqlRegexTest (String.mk (jsTrim (stripLineComments s.data)))

/-! ### Association maps (JS Map with insertion-order keys) -/

def amapSet {α β : Type} [DecidableEq α] : List (α × β) → α → β → List (α × β)
  | [], k, v => [(k, v)]
  | (k0, v0) :: rest, k, v =>
    if k0 = k then (k, v) :: rest else (k0, v0) :: amapSet rest k v

def amapGet {α β : Type} [DecidableEq α] (m : List (α × β)) (k : α) : Option β :=
  (m.find? (fun p => p.1 = k)).map (fun p => p.2)

def amapDelete {α β : Type} [DecidableEq α] (m : List (α × β)) (k : α) :
    List (α × β) :=
  m.filter (fun p => p.1 ≠ k)

/-! ### Connection identifiers
(proxy-handler.ts: `Math.random().toString(36).substring(2, 15)`) -/

/-- Number.prototype.toString(36) on a Math.random() draw from [0,1): the
draw is represented by its list of fractional base-36 digits in shortest
form.  The draw 0 has no fractional digits and prints as "0"; every other
draw prints as "0." followed by its digits. -/
def randomToString36 (fracDigits : List Char) : String :=
  if fracDigits.isEmpty then "0" else "0." ++ String.mk fracDigits

/-- The connection-id generator of the interception layer. -/
def genConnectionId (fracDigits : List Char) : String :=
  jsSubstring (randomToString36 fracDigits) 2 15

/-- The connection ids produced by a sequence of reservations whose random
draws are given; the source performs no uniqueness check across draws. -/
def reservationIds (draws : List (List Char)) : List String :=
  draws.map genConnectionId

/-! ### Reserve / release lifecycle
(proxy-handler.ts lines 19-44 and reserved-connection.ts lines 144-195) -/

/-- The intercepted `reserve`: after the underlying reserve resolves to the
handle identified by `hid`, the generated id is recorded against it and a
connect event is emitted. -/
def reserveStep (m : List (Nat × String)) (hid : Nat) (cid : String)
    (t : Int) : List Emitted × List (Nat × String) :=
  ([.connection { kind := "connect", timestamp := t, connectionId := cid }],
   amapSet m hid cid)

/-- A method invocation on the wrapped reserved connection (the object-proxy
get path of reserved-connection.ts).  `p` is the property name.  A `release`
call first emits a disconnect event and deletes the map entry, but only when
the recorded connectionId is truthy (a nonempty string); then the SQL guard
(which excludes the release and constructor properties) decides whether the
call runs through emitAndRunQuery or is delegated unchanged. -/
def reservedMethodCall (m : List (Nat × String)) (hid : Nat) (cid : String)
    (p : String) (inv : Invocation) (databaseName : Option String)
    (t start stop : Int) (out : Except JsValue JsValue) :
    List Emitted × List (Nat × String) × Except JsValue JsValue :=
  let rel :=
    if p = "release" ∧ cid ≠ "" then
      ([Emitted.connection { kind := "disconnect", timestamp := t,
                             connectionId := cid }],
       amapDelete m hid)
    else ([], m)
  if p ≠ "release" ∧ p ≠ "constructor" ∧ isQueryCall inv = true then
    let q := emitAndRunQuery (invSql inv) inv.params databaseName start stop out
    (rel.1 ++ q.1, rel.2, q.2)
  else (rel.1, rel.2, out)

/-- The reserve, single query, release sequence of C7: a reservation (with the
generated id `cid`), one invocation of the method named `qprop`, then a
release.  Returns all emitted events in order and the final connectionIds
map. -/
def runReserveQueryRelease (m0 : List (Nat × String)) (hid : Nat)
    (cid : String) (qprop : String) (inv : Invocation)
    (databaseName : Option String) (t1 start stop t3 : Int)
    (out relOut : Except JsValue JsValue) :
    List Emitted × List (Nat × String) :=
  let r := reserveStep m0 hid cid t1
  let q := reservedMethodCall r.2 hid cid qprop inv databaseName 0 start stop out
  let d := reservedMethodCall q.2.1 hid cid "release" { arg0 := none, params := [] }
    databaseName t3 0 0 relOut
  (r.1 ++ q.1 ++ d.1, d.2.1)

/-! ### Telemetry consumer: event listeners
(lib/src/instrumentation.ts, setupEventListeners / removeEventListeners) -/

/-- The per-topic listener lists of the singleton event emitter; listeners are
identified by the numbers handed out below. -/
structure EmitterListeners where
  queryListeners : List Nat
  connListeners : List Nat
  deriving DecidableEq, Repr

/-- The instrumentation's listener bookkeeping: `listener` is the stored
query-event listener (the connection-event listener is an anonymous function
the source never stores); `nextId` generates fresh listener identities. -/
structure InstrListenerState where
  listener : Option Nat
  nextId : Nat
  deriving DecidableEq, Repr

/-- removeEventListeners: when a query listener is stored, detach it from the
"db:query" topic and forget it; nothing is ever detached from the
"db:connection" topic. -/
def removeEventListeners (em : EmitterListeners) (st : InstrListenerState) :
    EmitterListeners × InstrListenerState :=
  match st.listener with
  | some l =>
    ({ em with queryListeners := em.queryListeners.erase l },
     { st with listener := none })
  | none => (em, st)

/-- setupEventListeners: detach the previous query listener when present, then
attach a fresh query listener (stored) and a fresh anonymous connection
listener (not stored). -/
def setupEventListeners (em : EmitterListeners) (st : InstrListenerState) :
    EmitterListeners × InstrListenerState :=
  let s1 := if st.listener.isSome then removeEventListeners em st else (em, st)
  let l := s1.2.nextId
  let c := s1.2.nextId + 1
  ({ queryListeners := s1.1.queryListeners ++ [l],
     connListeners := s1.1.connListeners ++ [c] },
   { listener := some l, nextId := s1.2.nextId + 2 })

/-- enable() calls super.enable() (which does not touch the emitter) and then
setupEventListeners. -/
def enablePair (s : EmitterListeners × InstrListenerState) :
    EmitterListeners × InstrListenerState :=
  setupEventListeners s.1 s.2

/-- disable() calls super.disable() and then removeEventListeners. -/
def disablePair (s : EmitterListeners × InstrListenerState) :
    EmitterListeners × InstrListenerState :=
  removeEventListeners s.1 s.2

def iterEnable : Nat → (EmitterListeners × InstrListenerState) →
    EmitterListeners × InstrListenerState
  | 0, s => s
  | n + 1, s => enablePair (iterEnable n s)

/-- The state before any instrumentation is enabled. -/
def initListeners : EmitterListeners × InstrListenerState :=
  ({ queryListeners := [], connListeners := [] }, { listener := none, nextId := 0 })

/-! ### Telemetry consumer: connection events
(lib/src/instrumentation.ts, handleConnectionEvent) -/

/-- The consumer state touched by handleConnectionEvent: the
connectionId-to-timestamp map, the running total of the connection counter,
and the values recorded into the connection-duration histogram (in seconds,
the source divides milliseconds by 1000). -/
structure ConsumerState where
  connectionStartTimes : List (String × Int)
  connectionCount : Nat
  connDurationRecords : List ℚ
  deriving DecidableEq, Repr

/-- Embedding of handleConnectionEvent.  `hasCounter` and `hasHistogram` say
whether connectionCounter and connectionDurationHistogram were initialized
(they stay undefined until initializeMetrics runs with a meter).  The counter
is incremented for every connection event, before the dispatch on the event
kind; on disconnect the recorded start time must also be truthy (nonzero) for
the histogram branch to run. -/
def handleConnectionEvent (hasCounter hasHistogram : Bool)
    (st : ConsumerState) (e : ConnectionEvent) : ConsumerState :=
  let st1 :=
    if hasCounter then { st with connectionCount := st.connectionCount + 1 }
    else st
  if e.kind = "connect" then
    { st1 with connectionStartTimes :=
        amapSet st1.connectionStartTimes e.connectionId e.timestamp }
  else if e.kind = "disconnect" then
    match amapGet st1.connectionStartTimes e.connectionId with
    | some startTime =>
      if startTime ≠ 0 ∧ hasHistogram = true then
        { st1 with
          connDurationRecords := st1.connDurationRecords ++
            [((e.timestamp - startTime : Int) : ℚ) / 1000],
          connectionStartTimes :=
            amapDelete st1.connectionStartTimes e.connectionId }
      else st1
    | none => st1
  else st1

/-! ## Helper lemmas -/

lemma length_mkString (l : List Char) : (String.mk l).length = l.length := rfl

lemma length_jsSubstring_0_100 (s : String) (h : 100 < s.length) :
    (jsSubstring s 0 100).length = 100 := by
  have hd : s.length = s.data.length := rfl
  simp only [jsSubstring, length_mkString, List.length_take, List.length_drop]
  omega

/-! ## Claims -/

/-- C1: for a query-shaped invocation whose underlying call fails with `e`,
emitAndRunQuery publishes exactly one QueryEvent on the query topic, that
event carries the failure (outcome Failure: `error = some e`, no result), and
the very same failure value is re-raised to the caller unchanged — the
interception layer never swallows or alters the underlying error. -/
theorem c1_failure_event_and_reraise (sql : String) (params : List JsValue)
    (db : Option String) (t0 t1 : Int) (e : JsValue) :
    emitAndRunQuery sql params db t0 t1 (Except.error e) =
      ([Emitted.query { sql := sql, params := params, result := none,
                        error := some e, durationMs := t1 - t0,
                        databaseName := db }], Except.error e) := rfl

/-- C2: for a query-shaped invocation whose underlying call succeeds with
value `v`, emitAndRunQuery publishes exactly one QueryEvent with outcome
Result, the caller receives the identical value `v`, and when the settlement
reading is not before the start reading the recorded durationMillis is
non-negative. -/
theorem c2_success_event_and_value (sql : String) (params : List JsValue)
    (db : Option String) (t0 t1 : Int) (v : JsValue) :
    emitAndRunQuery sql params db t0 t1 (Except.ok v) =
      ([Emitted.query { sql := sql, params := params, result := some v,
                        error := none, durationMs := t1 - t0,
                        databaseName := db }], Except.ok v)
    ∧ (t0 ≤ t1 →
        ∀ d ∈ queryDurations (emitAndRunQuery sql params db t0 t1 (Except.ok v)).1,
          0 ≤ d) := by
  refine ⟨rfl, ?_⟩
  intro h d hd
  simp [emitAndRunQuery, queryDurations] at hd
  omega

theorem c2_witness :
    (3 : Int) ≤ 5 ∧
      (∀ d ∈ queryDurations
          (emitAndRunQuery "SELECT 1" [] none 3 5 (Except.ok JsValue.nullV)).1,
        0 ≤ d) :=
  ⟨by decide,
   (c2_success_event_and_value "SELECT 1" [] none 3 5 JsValue.nullV).2 (by decide)⟩

/-- C8: the analyzer is a total deterministic function (it is defined as a
pure Lean function on all strings, so it never throws), and on the empty
string it yields UNKNOWN, no table, all clause booleans false, zero
parameters and low complexity. -/
theorem c8_analyze_total_and_empty :
    analyzeQuery "" =
      { operation := "UNKNOWN", table := none, hasWhere := false,
        hasJoin := false, hasOrderBy := false, hasLimit := false,
        parameterCount := 0, estimatedComplexity := PG_COMPLEXITY_LOW }
    ∧ ∀ s1 s2 : String, s1 = s2 → analyzeQuery s1 = analyzeQuery s2 := by
  refine ⟨by decide, ?_⟩
  intro s1 s2 h
  rw [h]

theorem c8_witness :
    ("SELECT * FROM t" : String) = "SELECT * FROM t" ∧
      analyzeQuery "SELECT * FROM t" = analyzeQuery "SELECT * FROM t" :=
  ⟨rfl, c8_analyze_total_and_empty.2 "SELECT * FROM t" "SELECT * FROM t" rfl⟩

/-- C10: the default parameter sanitizer truncates every string longer than
100 characters to its first 100 characters plus "..." and never redacts it
(even when it matches the sensitive pattern); it returns "[REDACTED]" for a
string of length at most 100 exactly when the string matches the
password/token/secret pattern; and every non-string value is returned as its
String(...) conversion. -/
theorem c10_default_sanitizer (s : String) (v : JsValue) :
    (100 < s.length →
      defaultParameterSanitizer (JsValue.str s) = jsSubstring s 0 100 ++ "..."
      ∧ defaultParameterSanitizer (JsValue.str s) ≠ "[REDACTED]")
    ∧ (s.length ≤ 100 → testSensitive s = true →
        defaultParameterSanitizer (JsValue.str s) = "[REDACTED]")
    ∧ (s.length ≤ 100 → testSensitive s = false →
        defaultParameterSanitizer (JsValue.str s) = s)
    ∧ ((∀ t : String, v ≠ JsValue.str t) →
        defaultParameterSanitizer v = jsToString v) := by
  refine ⟨?_, ?_, ?_, ?_⟩
  · intro h
    have heq : defaultParameterSanitizer (JsValue.str s) =
        jsSubstring s 0 100 ++ "..." := by
      simp only [defaultParameterSanitizer]
      rw [if_pos (by omega)]
    refine ⟨heq, ?_⟩
    intro hbad
    rw [heq] at hbad
    have hlen := congrArg String.length hbad
    rw [String.length_append, length_jsSubstring_0_100 s h] at hlen
    have h3 : ("..." : String).length = 3 := rfl
    have h10 : ("[REDACTED]" : String).length = 10 := rfl
    omega
  · intro h hsens
    simp only [defaultParameterSanitizer]
    rw [if_neg (by omega), if_pos hsens]
  · intro h hsens
    simp only [defaultParameterSanitizer]
    rw [if_neg (by omega), if_neg (by simp [hsens])]
  · intro h
    cases v with
    | str t => exact absurd rfl (h t)
    | num n => rfl
    | boolean b => rfl
    | nullV => rfl
    | undef => rfl

theorem c10_witness :
    (100 < (String.mk (List.replicate 101 'a')).length
      ∧ defaultParameterSanitizer (JsValue.str (String.mk (List.replicate 101 'a')))
          = jsSubstring (String.mk (List.replicate 101 'a')) 0 100 ++ "...")
    ∧ defaultParameterSanitizer (JsValue.str "token") = "[REDACTED]"
    ∧ defaultParameterSanitizer (JsValue.num 42) = "42" := by
  refine ⟨⟨by decide,
    ((c10_default_sanitizer (String.mk (List.replicate 101 'a')) JsValue.nullV).1
      (by decide)).1⟩,
    (c10_default_sanitizer "token" JsValue.nullV).2.1 (by decide) (by decide),
    (c10_default_sanitizer "x" (JsValue.num 42)).2.2.2 ?_⟩
  intro t h
  exact absurd h (by simp)

/-- C4 counterexample: the invocation whose first argument is " SELECT 1"
(leading whitespace) satisfies the claim's trimmed detection heuristic, yet
the wrapped call publishes no event at all: the source regex is anchored at
the very first character, with no trimming of whitespace or comments. -/
theorem c4_counterexample :
    specQueryShaped " SELECT 1" = true
    ∧ (wrappedCall { arg0 := some (JsValue.str " SELECT 1"), params := [] }
        none 0 0 (Except.ok JsValue.nullV)).1 = [] :=
  ⟨by decide, by decide⟩

/-- C4 amended: for a non-reserve invocation on a wrapped handle, a QueryEvent
is published (exactly one) iff the first argument is a nonempty string that
starts at its very first character, case-insensitively and with no trimming
of leading whitespace or comments, with one of SELECT, INSERT, UPDATE,
DELETE, CREATE, ALTER, DROP; every other invocation is delegated with no
event and the outcome is handed to the caller unchanged in either case. -/
theorem c4_query_detection (inv : Invocation) (db : Option String)
    (t0 t1 : Int) (out : Except JsValue JsValue) :
    ((wrappedCall inv db t0 t1 out).1.length = if isQueryCall inv then 1 else 0)
    ∧ (isQueryCall inv =
        match inv.arg0 with
        | some (JsValue.str s) =>
          !s.isEmpty &&
            opKeywords.any (fun kw => kw.data.isPrefixOf (upperChars s.data))
        | _ => false)
    ∧ (wrappedCall inv db t0 t1 out).2 = out := by
  refine ⟨?_, ?_, ?_⟩
  · cases hq : isQueryCall inv with
    | true => cases out <;> simp [wrappedCall, hq, emitAndRunQuery]
    | false => simp [wrappedCall, hq]
  · rcases inv with ⟨a0, ps⟩
    cases a0 with
    | none => rfl
    | some v => cases v <;> rfl
  · cases hq : isQueryCall inv with
    | true => cases out <;> simp [wrappedCall, hq, emitAndRunQuery]
    | false => simp [wrappedCall, hq]

lemma operationOf_spec (u : List Char) :
    (operationOf u = "UNKNOWN" ∨ (operationOf u).data.isPrefixOf u = true)
    ∧ (operationOf u = "UNKNOWN" ↔
        opKeywords.all (fun kw => !kw.data.isPrefixOf u) = true)
    ∧ operationOf u ∈ "UNKNOWN" :: opKeywords := by
  unfold operationOf
  split_ifs with h1 h2 h3 h4 h5 h6 h7 <;> simp_all [opKeywords]
  refine ⟨?_, ?_, ?_, ?_, ?_, ?_, ?_⟩ <;> rw [← Bool.not_eq_true] <;> intro hh
  · exact h1 (by simpa using hh)
  · exact h2 (by simpa using hh)
  · exact h3 (by simpa using hh)
  · exact h4 (by simpa using hh)
  · exact h5 (by simpa using hh)
  · exact h6 (by simpa using hh)
  · exact h7 (by simpa using hh)

/-- Modelled from the claim wording, for comparison only: the first
whitespace-delimited token of the comment-stripped, whitespace-collapsed
statement. -/
def firstTokenOf (s : String) : String :=
  String.mk ((cleanSqlChars s).takeWhile (fun c => !jsIsWhitespace c))

/-- C9 counterexample: for "SELECTION x" the first token of the cleaned
statement is "SELECTION", which matches none of the seven keywords, so the
claim demands operation UNKNOWN; the source classifies the statement as
SELECT, because it matches keywords as prefixes rather than as tokens. -/
theorem c9_counterexample :
    (analyzeQuery "SELECTION x").operation = "SELECT"
    ∧ opKeywords.contains
        (String.mk (upperChars (firstTokenOf "SELECTION x").data)) = false
    ∧ (analyzeQuery "SELECTION x").operation ≠ "UNKNOWN" := by decide

/-- C9 amended: the operation is determined by a case-insensitive PREFIX
match of the comment-stripped, whitespace-collapsed statement against the
seven keywords (so a statement whose first token merely begins with a
keyword, such as "SELECTION x", still classifies as that keyword); the
reported operation is canonical uppercase — it is itself a prefix of the
upper-cased cleaned statement — and UNKNOWN is returned exactly when no
keyword is a prefix. -/
theorem c9_operation_prefix_match (s : String) :
    ((analyzeQuery s).operation = "UNKNOWN"
      ∨ ((analyzeQuery s).operation.data.isPrefixOf
          (upperChars (cleanSqlChars s)) = true))
    ∧ ((analyzeQuery s).operation = "UNKNOWN" ↔
        opKeywords.all
          (fun kw => !kw.data.isPrefixOf (upperChars (cleanSqlChars s))) = true)
    ∧ (analyzeQuery s).operation ∈ "UNKNOWN" :: opKeywords := by
  have h : (analyzeQuery s).operation
      = operationOf (upperChars (cleanSqlChars s)) := rfl
  rw [h]
  exact operationOf_spec _

lemma iterEnable_closed (n : Nat) :
    iterEnable (n + 1) initListeners =
      ({ queryListeners := [2 * n],
         connListeners := (List.range (n + 1)).map (fun i => 2 * i + 1) },
       { listener := some (2 * n), nextId := 2 * n + 2 }) := by
  induction n with
  | zero => decide
  | succ m ih =>
    have hstep : iterEnable (m + 1 + 1) initListeners
        = enablePair (iterEnable (m + 1) initListeners) := rfl
    rw [hstep, ih]
    simp [enablePair, setupEventListeners, removeEventListeners, List.range_succ]
    omega

/-- C3 counterexample: after two enables the connection-events topic holds two
subscribed handlers while a single enable leaves one, and a subsequent disable
removes neither — re-enabling duplicates the connection listener, because
removeEventListeners only ever detaches the stored query listener. -/
theorem c3_counterexample :
    (iterEnable 2 initListeners).1.connListeners.length = 2
    ∧ (iterEnable 1 initListeners).1.connListeners.length = 1
    ∧ (disablePair (iterEnable 2 initListeners)).1.connListeners.length = 2 := by
  decide

/-- C3 amended: on the query-events topic, N enables in a row leave exactly
one subscribed handler (each re-enable first detaches the previous one) and a
disable then removes exactly that one; on the connection-events topic every
enable adds one anonymous handler, and neither re-enabling nor disabling ever
removes any of them. -/
theorem c3_listener_counts (n : Nat) (h : 1 ≤ n) :
    ((iterEnable n initListeners).1.queryListeners.length = 1)
    ∧ ((iterEnable n initListeners).1.connListeners.length = n)
    ∧ ((disablePair (iterEnable n initListeners)).1.queryListeners.length = 0)
    ∧ ((disablePair (iterEnable n initListeners)).1.connListeners.length = n) := by
  obtain ⟨m, rfl⟩ : ∃ m, n = m + 1 := ⟨n - 1, by omega⟩
  rw [iterEnable_closed]
  refine ⟨rfl, by simp, ?_, ?_⟩
  · simp [disablePair, removeEventListeners]
  · simp [disablePair, removeEventListeners]

theorem c3_witness :
    1 ≤ 2
    ∧ ((iterEnable 2 initListeners).1.queryListeners.length = 1
      ∧ (iterEnable 2 initListeners).1.connListeners.length = 2
      ∧ (disablePair (iterEnable 2 initListeners)).1.queryListeners.length = 0
      ∧ (disablePair (iterEnable 2 initListeners)).1.connListeners.length = 2) :=
  ⟨by decide, c3_listener_counts 2 (by decide)⟩

lemma amapGet_amapDelete {α β : Type} [DecidableEq α] (m : List (α × β)) (k : α) :
    amapGet (amapDelete m k) k = none := by
  have hfind : (amapDelete m k).find? (fun p => p.1 = k) = none := by
    rw [List.find?_eq_none]
    intro p hp
    simp [amapDelete, List.mem_filter] at hp
    simp [hp.2]
  simp [amapGet, hfind]

/-- C5 counterexample: with the connection counter initialized, a Disconnect
event on its own increments the connection counter by one — the source adds
to the counter for every connection event, before dispatching on the event
kind, so the claim that a Disconnect increments no counter by itself fails. -/
theorem c5_counterexample :
    (handleConnectionEvent true true
        { connectionStartTimes := [], connectionCount := 0,
          connDurationRecords := [] }
        { kind := "disconnect", timestamp := 5, connectionId := "c1" }).connectionCount
      = 1 := by decide

/-- C5 amended: on a Disconnect event the consumer increments the connection
counter whenever that counter is initialized, exactly as for any other
connection event; then, if a matching nonzero start timestamp exists and the
connection-duration histogram is initialized, it records the elapsed duration
(disconnect timestamp minus connect timestamp, divided by 1000) and removes
the map entry; when no matching start exists it changes nothing further and
does not error. -/
theorem c5_disconnect_behaviour (hc hh : Bool) (st : ConsumerState)
    (ts : Int) (cid : String) :
    ((handleConnectionEvent hc hh st
        { kind := "disconnect", timestamp := ts, connectionId := cid }).connectionCount
      = st.connectionCount + (if hc then 1 else 0))
    ∧ (∀ s0 : Int,
        amapGet st.connectionStartTimes cid = some s0 → s0 ≠ 0 → hh = true →
        (handleConnectionEvent hc hh st
            { kind := "disconnect", timestamp := ts, connectionId := cid }).connDurationRecords
          = st.connDurationRecords ++ [((ts - s0 : Int) : ℚ) / 1000]
        ∧ amapGet (handleConnectionEvent hc hh st
            { kind := "disconnect", timestamp := ts,
              connectionId := cid }).connectionStartTimes cid
          = none)
    ∧ (amapGet st.connectionStartTimes cid = none →
        (handleConnectionEvent hc hh st
            { kind := "disconnect", timestamp := ts, connectionId := cid }).connectionStartTimes
          = st.connectionStartTimes
        ∧ (handleConnectionEvent hc hh st
            { kind := "disconnect", timestamp := ts, connectionId := cid }).connDurationRecords
          = st.connDurationRecords) := by
  refine ⟨?_, ?_, ?_⟩
  · cases hc <;>
      cases hget : amapGet st.connectionStartTimes cid <;>
      simp [handleConnectionEvent, hget] <;>
      split_ifs <;> simp
  · intro s0 hs0 hnz hhh
    subst hhh
    cases hc <;>
      simp [handleConnectionEvent, hs0, hnz, amapGet_amapDelete]
  · intro hnone
    cases hc <;> simp [handleConnectionEvent, hnone]

theorem c5_witness :
    amapGet [("c1", (7 : Int))] "c1" = some 7
    ∧ (7 : Int) ≠ 0
    ∧ ((handleConnectionEvent true true
          { connectionStartTimes := [("c1", 7)], connectionCount := 3,
            connDurationRecords := [] }
          { kind := "disconnect", timestamp := 1007,
            connectionId := "c1" }).connDurationRecords
        = [] ++ [((1007 - 7 : Int) : ℚ) / 1000]
      ∧ amapGet (handleConnectionEvent true true
          { connectionStartTimes := [("c1", 7)], connectionCount := 3,
            connDurationRecords := [] }
          { kind := "disconnect", timestamp := 1007,
            connectionId := "c1" }).connectionStartTimes "c1"
        = none) :=
  ⟨by decide, by decide,
   (c5_disconnect_behaviour true true
      { connectionStartTimes := [("c1", 7)], connectionCount := 3,
        connDurationRecords := [] } 1007 "c1").2.1 7 (by decide) (by decide) rfl⟩

/-- C6 counterexample: two consecutive reservations whose Math.random draws
have the same fractional digits receive the same connectionId — the source
performs no uniqueness check across reservations, and Math.random can return
the same value twice, so distinct reservations do not guarantee distinct
ids. -/
theorem c6_counterexample :
    reservationIds [['a'], ['a']] = ["a", "a"]
    ∧ (reservationIds [['a'], ['a']]).get? 0 = (reservationIds [['a'], ['a']]).get? 1 := by
  decide

lemma genConnectionId_eq_take (d : List Char) (h : d ≠ []) :
    genConnectionId d = String.mk (d.take 13) := by
  have hne : d.isEmpty = false := by simpa using h
  have hd : randomToString36 d = String.mk ('0' :: '.' :: d) := by
    simp [randomToString36, hne]
    rfl
  rw [genConnectionId, hd]
  simp only [jsSubstring, length_mkString, List.length_cons]
  have ha : min (min 2 (d.length + 1 + 1)) (min 15 (d.length + 1 + 1)) = 2 := by omega
  have hb : max (min 2 (d.length + 1 + 1)) (min 15 (d.length + 1 + 1))
      = min 15 (d.length + 2) := by omega
  rw [ha, hb]
  congr 1
  have hdrop : List.drop 2 ('0' :: '.' :: d) = d := rfl
  rw [hdrop]
  rw [show min 15 (d.length + 2) - 2 = min 13 d.length by omega]
  rw [← List.take_take, List.take_length]

/-- C6 amended: connection identifiers are generated from the fractional
base-36 digits of a Math.random draw, with no uniqueness check; two
reservations are guaranteed distinct ids exactly when their (nonzero) draws
differ within the first 13 fractional base-36 digits — in particular
uniqueness per reservation is NOT guaranteed by the interception layer. -/
theorem c6_id_distinctness (d1 d2 : List Char) (h1 : d1 ≠ []) (h2 : d2 ≠ [])
    (h : d1.take 13 ≠ d2.take 13) :
    genConnectionId d1 ≠ genConnectionId d2 := by
  rw [genConnectionId_eq_take d1 h1, genConnectionId_eq_take d2 h2]
  intro hmk
  exact h (by simpa using congrArg String.data hmk)

theorem c6_witness :
    (['a'] : List Char) ≠ [] ∧ (['b'] : List Char) ≠ []
    ∧ List.take 13 ['a'] ≠ List.take 13 ['b']
    ∧ genConnectionId ['a'] ≠ genConnectionId ['b'] :=
  ⟨by decide, by decide, by decide,
   c6_id_distinctness ['a'] ['b'] (by decide) (by decide) (by decide)⟩

lemma runRQR_eq (m0 : List (Nat × String)) (hid : Nat) (cid qprop : String)
    (inv : Invocation) (db : Option String) (t1 start stop t3 : Int)
    (out relOut : Except JsValue JsValue)
    (h1 : cid ≠ "") (h2 : qprop ≠ "release") (h3 : qprop ≠ "constructor")
    (h4 : isQueryCall inv = true) :
    runReserveQueryRelease m0 hid cid qprop inv db t1 start stop t3 out relOut =
      ([Emitted.connection { kind := "connect", timestamp := t1, connectionId := cid }]
        ++ (emitAndRunQuery (invSql inv) inv.params db start stop out).1
        ++ [Emitted.connection { kind := "disconnect", timestamp := t3,
                                 connectionId := cid }],
       amapDelete (amapSet m0 hid cid) hid) := by
  simp [runReserveQueryRelease, reserveStep, reservedMethodCall, h1, h2, h3, h4]

/-- C7 amended: provided the generated connectionId is nonempty (the draw 0
is the only one whose id is empty), a reserve, single query, release sequence
publishes exactly three events, in order: one Connect, then one QueryEvent,
then one Disconnect carrying the same connectionId as the Connect; and the
identity-to-connectionId map no longer holds an entry for the reserved handle
once the Disconnect is published. -/
theorem c7_reserve_query_release (m0 : List (Nat × String)) (hid : Nat)
    (cid qprop : String) (inv : Invocation) (db : Option String)
    (t1 start stop t3 : Int) (out relOut : Except JsValue JsValue)
    (h1 : cid ≠ "") (h2 : qprop ≠ "release") (h3 : qprop ≠ "constructor")
    (h4 : isQueryCall inv = true) :
    (∃ qe : DbQueryEvent,
      (runReserveQueryRelease m0 hid cid qprop inv db t1 start stop t3 out relOut).1 =
        [Emitted.connection { kind := "connect", timestamp := t1, connectionId := cid },
         Emitted.query qe,
         Emitted.connection { kind := "disconnect", timestamp := t3,
                              connectionId := cid }])
    ∧ amapGet
        (runReserveQueryRelease m0 hid cid qprop inv db t1 start stop t3 out relOut).2
        hid = none := by
  rw [runRQR_eq m0 hid cid qprop inv db t1 start stop t3 out relOut h1 h2 h3 h4]
  constructor
  · cases out with
    | ok v =>
      exact ⟨{ sql := invSql inv, params := inv.params, result := some v,
               error := none, durationMs := stop - start, databaseName := db },
             by simp [emitAndRunQuery]⟩
    | error e =>
      exact ⟨{ sql := invSql inv, params := inv.params, result := none,
               error := some e, durationMs := stop - start, databaseName := db },
             by simp [emitAndRunQuery]⟩
  · exact amapGet_amapDelete _ _

theorem c7_witness :
    ("abc" : String) ≠ "" ∧ ("query" : String) ≠ "release"
    ∧ ("query" : String) ≠ "constructor"
    ∧ isQueryCall { arg0 := some (JsValue.str "SELECT 1"), params := [] } = true
    ∧ ((∃ qe : DbQueryEvent,
          (runReserveQueryRelease [] 0 "abc" "query"
              { arg0 := some (JsValue.str "SELECT 1"), params := [] } none
              1 2 3 4 (Except.ok JsValue.nullV) (Except.ok JsValue.undef)).1 =
            [Emitted.connection { kind := "connect", timestamp := 1, connectionId := "abc" },
             Emitted.query qe,
             Emitted.connection { kind := "disconnect", timestamp := 4,
                                  connectionId := "abc" }])
        ∧ amapGet (runReserveQueryRelease [] 0 "abc" "query"
              { arg0 := some (JsValue.str "SELECT 1"), params := [] } none
              1 2 3 4 (Except.ok JsValue.nullV) (Except.ok JsValue.undef)).2 0 = none) :=
  ⟨by decide, by decide, by decide, by decide,
   c7_reserve_query_release [] 0 "abc" "query"
     { arg0 := some (JsValue.str "SELECT 1"), params := [] } none
     1 2 3 4 (Except.ok JsValue.nullV) (Except.ok JsValue.undef)
     (by decide) (by decide) (by decide) (by decide)⟩

/-- C7 counterexample: on the draw 0, Math.random().toString(36) is "0" and
the generated connectionId is the empty string; the truthiness guard on
release then suppresses the Disconnect event, so the reserve, query, release
sequence publishes only two events instead of the claimed three. -/
theorem c7_counterexample :
    genConnectionId [] = ""
    ∧ (runReserveQueryRelease [] 0 (genConnectionId []) "query"
        { arg0 := some (JsValue.str "SELECT 1"), params := [] } none
        1 2 3 4 (Except.ok JsValue.nullV) (Except.ok JsValue.undef)).1.length = 2 := by
  decide

end OtelPg
